import Mathlib

/-!
Shallow embedding of the financial ratio and anomaly analysis engine of the
repository (financial_tools.py, langchain_integration.py, backend.py,
anomaly.py), together with theorems settling the frozen claims about it.

Conventions of the embedding:
* Python floats are modelled as rationals `ℚ` where the code only performs
  field arithmetic and comparisons, and as reals `ℝ` where square roots or
  exponentials occur (standard deviations, the VAE pipeline).
* `float('inf')` is modelled by a dedicated constructor of `RVal`.
* The string sentinel `"N/A"` is modelled by the constructor `RVal.na`.
* Missing dictionary keys are modelled by `Option ℚ`; `dict.get(k, 0)`
  becomes `Option.getD · 0`, and Python truthiness of a possibly-missing
  number (`if x and y:`) becomes `truthy`.
* All embedded functions are total: the Python guards that prevent
  `ZeroDivisionError` are carried over literally, and `ℚ`/`ℝ` division by
  zero (which yields 0 in Lean) is only ever reachable where the Python
  value would be a NaN that subsequently fails every comparison — each such
  spot is noted where it occurs.
-/

namespace FinRepo

/-- The value stored under `ratio_value` by the Python code: a finite float,
`float('inf')`, or the string sentinel `"N/A"`. -/
inductive RVal where
  | num (q : ℚ)
  | infty
  | na
deriving DecidableEq, Repr

/-- financial_tools.calculate_current_ratio: `inf` on zero denominator. -/
def calculate_current_ratio (current_assets current_liabilities : ℚ) : RVal :=
  if current_liabilities = 0 then .infty else .num (current_assets / current_liabilities)

/-- financial_tools.calculate_debt_to_equity_ratio: `inf` on zero denominator. -/
def calculate_debt_to_equity_ratio (total_liabilities shareholders_equity : ℚ) : RVal :=
  if shareholders_equity = 0 then .infty else .num (total_liabilities / shareholders_equity)

/-- financial_tools.calculate_gross_margin_ratio: `0.0` on zero denominator. -/
def calculate_gross_margin_ratio (gross_profit net_sales : ℚ) : RVal :=
  if net_sales = 0 then .num 0 else .num (gross_profit / net_sales)

/-- financial_tools.calculate_operating_margin_ratio: `0.0` on zero denominator. -/
def calculate_operating_margin_ratio (operating_income net_sales : ℚ) : RVal :=
  if net_sales = 0 then .num 0 else .num (operating_income / net_sales)

/-- financial_tools.calculate_return_on_assets_ratio: `0.0` on zero denominator. -/
def calculate_return_on_assets_ratio (net_income total_assets : ℚ) : RVal :=
  if total_assets = 0 then .num 0 else .num (net_income / total_assets)

/-- financial_tools.calculate_return_on_equity_ratio: `0.0` on zero denominator. -/
def calculate_return_on_equity_ratio (net_income shareholders_equity : ℚ) : RVal :=
  if shareholders_equity = 0 then .num 0 else .num (net_income / shareholders_equity)

/-- financial_tools.calculate_asset_turnover_ratio. -/
def calculate_asset_turnover_ratio (net_sales average_total_assets : ℚ) : RVal :=
  if average_total_assets = 0 then .num 0 else .num (net_sales / average_total_assets)

/-- financial_tools.calculate_inventory_turnover_ratio. -/
def calculate_inventory_turnover_ratio (cost_of_goods_sold average_inventory : ℚ) : RVal :=
  if average_inventory = 0 then .num 0 else .num (cost_of_goods_sold / average_inventory)

/-- financial_tools.calculate_receivables_turnover_ratio. -/
def calculate_receivables_turnover_ratio (net_credit_sales average_accounts_receivable : ℚ) : RVal :=
  if average_accounts_receivable = 0 then .num 0
  else .num (net_credit_sales / average_accounts_receivable)

/-- financial_tools.calculate_debt_ratio: `0.0` on zero denominator. -/
def calculate_debt_ratio (total_liabilities total_assets : ℚ) : RVal :=
  if total_assets = 0 then .num 0 else .num (total_liabilities / total_assets)

/-- financial_tools.calculate_interest_coverage_ratio: `inf` on zero denominator. -/
def calculate_interest_coverage_ratio (operating_income interest_expenses : ℚ) : RVal :=
  if interest_expenses = 0 then .infty else .num (operating_income / interest_expenses)

/-- The `income_statement` sub-dictionary of the extracted record; every key
may be absent (`None` / not present in the JSON). -/
structure IncomeStatement where
  net_sales : Option ℚ := none
  cost_of_goods_sold : Option ℚ := none
  gross_profit : Option ℚ := none
  operating_income : Option ℚ := none
  interest_expenses : Option ℚ := none
  net_income : Option ℚ := none
  previous_year_sales : Option ℚ := none
  previous_year_net_income : Option ℚ := none
deriving DecidableEq

/-- The `balance_sheet` sub-dictionary. -/
structure BalanceSheet where
  cash_and_equivalents : Option ℚ := none
  current_assets : Option ℚ := none
  total_assets : Option ℚ := none
  current_liabilities : Option ℚ := none
  total_liabilities : Option ℚ := none
  shareholders_equity : Option ℚ := none
  average_inventory : Option ℚ := none
  average_accounts_receivable : Option ℚ := none
  previous_year_total_assets : Option ℚ := none
  previous_year_total_liabilities : Option ℚ := none
deriving DecidableEq

/-- The `cash_flow` sub-dictionary. -/
structure CashFlow where
  operating_cash_flow : Option ℚ := none
  capital_expenditures : Option ℚ := none
  free_cash_flow : Option ℚ := none
deriving DecidableEq

/-- The structured financial-statement record consumed by
`calculate_financial_ratios` and `detect_financial_red_flags`. -/
structure FinRecord where
  income_statement : IncomeStatement := {}
  balance_sheet : BalanceSheet := {}
  cash_flow : CashFlow := {}
deriving DecidableEq

/-- Python truthiness of a possibly-missing number: `None` and `0` are
falsy, any other number is truthy. -/
def truthy : Option ℚ → Bool
  | none => false
  | some v => v ≠ 0

/-- One entry of the ratios dictionary: the echoed input operands (in the
order the Python dict lists them) and the `ratio_value` /
`growth_percentage` / `value` field. -/
structure RatioEntry where
  inputs : List ℚ
  value : RVal
deriving DecidableEq, Repr

/-- One entry of the `"Anomalies"` list inside the ratios dictionary
(`type` and `severity`; the formatted `description` string is presentation
only and is not modelled). -/
structure AnomalyNote where
  typ : String
  severity : String
deriving DecidableEq, Repr

/-- The result of `calculate_financial_ratios`: the insertion-ordered ratio
entries and the `"Anomalies"` list stored under its own key. -/
structure RatiosOutput where
  entries : List (String × RatioEntry)
  anomalies : List AnomalyNote
deriving DecidableEq

/-- langchain_integration.safe_calculate: the zero-denominator guard returns
the default (always `"N/A"` at every call site) before the wrapped ratio
function is ever called; the `except` branch is unreachable in the
embedding because all embedded arithmetic is total. -/
def safe_calculate (f : ℚ → ℚ → RVal) (numer denom : ℚ) (dflt : RVal) : RVal :=
  if denom = 0 then dflt else f numer denom

/-! The local variables of `calculate_financial_ratios` (each statement
field fetched with `.get(key, 0)`) are embedded as small accessor
functions, and the body of the Python function is split into the base
ratio dictionary, the growth entries, the cash-flow entries and the
`"Anomalies"` list, concatenated at the end exactly as the dict literal
and subsequent conditional insertions build them up. -/

def net_salesD (d : FinRecord) : ℚ := d.income_statement.net_sales.getD 0
def cost_of_goods_soldD (d : FinRecord) : ℚ := d.income_statement.cost_of_goods_sold.getD 0
def gross_profitD (d : FinRecord) : ℚ := d.income_statement.gross_profit.getD 0
def operating_incomeD (d : FinRecord) : ℚ := d.income_statement.operating_income.getD 0
def interest_expensesD (d : FinRecord) : ℚ := d.income_statement.interest_expenses.getD 0
def net_incomeD (d : FinRecord) : ℚ := d.income_statement.net_income.getD 0
def previous_year_salesD (d : FinRecord) : ℚ := d.income_statement.previous_year_sales.getD 0
def previous_year_net_incomeD (d : FinRecord) : ℚ :=
  d.income_statement.previous_year_net_income.getD 0
def cash_and_equivalentsD (d : FinRecord) : ℚ := d.balance_sheet.cash_and_equivalents.getD 0
def current_assetsD (d : FinRecord) : ℚ := d.balance_sheet.current_assets.getD 0
def total_assetsD (d : FinRecord) : ℚ := d.balance_sheet.total_assets.getD 0
def current_liabilitiesD (d : FinRecord) : ℚ := d.balance_sheet.current_liabilities.getD 0
def total_liabilitiesD (d : FinRecord) : ℚ := d.balance_sheet.total_liabilities.getD 0
def shareholders_equityD (d : FinRecord) : ℚ := d.balance_sheet.shareholders_equity.getD 0
def average_inventoryD (d : FinRecord) : ℚ := d.balance_sheet.average_inventory.getD 0
def average_accounts_receivableD (d : FinRecord) : ℚ :=
  d.balance_sheet.average_accounts_receivable.getD 0
def previous_year_total_assetsD (d : FinRecord) : ℚ :=
  d.balance_sheet.previous_year_total_assets.getD 0
def operating_cash_flowD (d : FinRecord) : ℚ := d.cash_flow.operating_cash_flow.getD 0
def free_cash_flowD (d : FinRecord) : ℚ := d.cash_flow.free_cash_flow.getD 0

/-- The stored `ratios["Current Ratio"]["ratio_value"]`. -/
def currentRatioValue (d : FinRecord) : RVal :=
  safe_calculate calculate_current_ratio (current_assetsD d) (current_liabilitiesD d) .na

/-- The stored `ratios["Debt Ratio"]["ratio_value"]`. -/
def debtRatioValue (d : FinRecord) : RVal :=
  safe_calculate calculate_debt_ratio (total_liabilitiesD d) (total_assetsD d) .na

/-- The twelve always-present entries of the ratios dict, in insertion
order. `net_credit_sales` is `net_sales` and `average_total_assets` is
`total_assets`, as assigned at the top of the Python function. -/
def ratioEntriesBase (d : FinRecord) : List (String × RatioEntry) :=
  [("Current Ratio",
    (⟨[current_assetsD d, current_liabilitiesD d], currentRatioValue d⟩ : RatioEntry)),
   ("Cash Ratio",
    (⟨[cash_and_equivalentsD d, current_liabilitiesD d],
     safe_calculate (fun cash liab => if liab = 0 then .na else .num (cash / liab))
       (cash_and_equivalentsD d) (current_liabilitiesD d) .na⟩ : RatioEntry)),
   ("Debt to Equity Ratio",
    (⟨[total_liabilitiesD d, shareholders_equityD d],
     safe_calculate calculate_debt_to_equity_ratio (total_liabilitiesD d)
       (shareholders_equityD d) .na⟩ : RatioEntry)),
   ("Gross Margin Ratio",
    (⟨[gross_profitD d, net_salesD d],
     safe_calculate calculate_gross_margin_ratio (gross_profitD d) (net_salesD d) .na⟩ :
       RatioEntry)),
   ("Operating Margin Ratio",
    (⟨[operating_incomeD d, net_salesD d],
     safe_calculate calculate_operating_margin_ratio (operating_incomeD d) (net_salesD d) .na⟩ :
       RatioEntry)),
   ("Return on Assets Ratio",
    (⟨[net_incomeD d, total_assetsD d],
     safe_calculate calculate_return_on_assets_ratio (net_incomeD d) (total_assetsD d) .na⟩ :
       RatioEntry)),
   ("Return on Equity Ratio",
    (⟨[net_incomeD d, shareholders_equityD d],
     safe_calculate calculate_return_on_equity_ratio (net_incomeD d)
       (shareholders_equityD d) .na⟩ : RatioEntry)),
   ("Asset Turnover Ratio",
    (⟨[net_salesD d, total_assetsD d],
     safe_calculate calculate_asset_turnover_ratio (net_salesD d) (total_assetsD d) .na⟩ :
       RatioEntry)),
   ("Inventory Turnover Ratio",
    (⟨[cost_of_goods_soldD d, average_inventoryD d],
     safe_calculate calculate_inventory_turnover_ratio (cost_of_goods_soldD d)
       (average_inventoryD d) .na⟩ : RatioEntry)),
   ("Receivables Turnover Ratio",
    (⟨[net_salesD d, average_accounts_receivableD d],
     safe_calculate calculate_receivables_turnover_ratio (net_salesD d)
       (average_accounts_receivableD d) .na⟩ : RatioEntry)),
   ("Debt Ratio",
    (⟨[total_liabilitiesD d, total_assetsD d], debtRatioValue d⟩ : RatioEntry)),
   ("Interest Coverage Ratio",
    (⟨[operating_incomeD d, interest_expensesD d],
     safe_calculate calculate_interest_coverage_ratio (operating_incomeD d)
       (interest_expensesD d) .na⟩ : RatioEntry))]

/-- The conditionally inserted growth entries: each guard is the Python
truthiness test `if previous_year_x and x:` on the defaulted values, and
each value carries the inner `... if denom != 0 else "N/A"` conditional
verbatim. -/
def growthEntries (d : FinRecord) : List (String × RatioEntry) :=
  (if previous_year_salesD d ≠ 0 ∧ net_salesD d ≠ 0 then
    [("Sales Growth",
      (⟨[net_salesD d, previous_year_salesD d],
       if previous_year_salesD d ≠ 0 then
         .num (((net_salesD d - previous_year_salesD d) / previous_year_salesD d) * 100)
       else .na⟩ : RatioEntry))]
   else []) ++
  (if previous_year_net_incomeD d ≠ 0 ∧ net_incomeD d ≠ 0 then
    [("Profit Growth",
      (⟨[net_incomeD d, previous_year_net_incomeD d],
       if previous_year_net_incomeD d ≠ 0 then
         .num (((net_incomeD d - previous_year_net_incomeD d) / previous_year_net_incomeD d) * 100)
       else .na⟩ : RatioEntry))]
   else []) ++
  (if previous_year_total_assetsD d ≠ 0 ∧ total_assetsD d ≠ 0 then
    [("Asset Growth",
      (⟨[total_assetsD d, previous_year_total_assetsD d],
       if previous_year_total_assetsD d ≠ 0 then
         .num (((total_assetsD d - previous_year_total_assetsD d) /
           previous_year_total_assetsD d) * 100)
       else .na⟩ : RatioEntry))]
   else [])

/-- The cash-flow entries: the Cash-Flow-to-Net-Income entry is guarded by
truthiness of both operands; the Free Cash Flow entry is always inserted,
because `cash_flow.get('free_cash_flow', 0)` is never `None`. -/
def cashFlowEntries (d : FinRecord) : List (String × RatioEntry) :=
  (if operating_cash_flowD d ≠ 0 ∧ net_incomeD d ≠ 0 then
    [("Cash Flow to Net Income Ratio",
      (⟨[operating_cash_flowD d, net_incomeD d],
       safe_calculate (fun x y => .num (x / y)) (operating_cash_flowD d) (net_incomeD d) .na⟩ :
         RatioEntry))]
   else []) ++
  [("Free Cash Flow", (⟨[free_cash_flowD d], .num (free_cash_flowD d)⟩ : RatioEntry))]

/-- Anomaly check 1 of `calculate_financial_ratios`: net income exceeds
operating income despite interest expenses. -/
def noteIncomeAnomaly (d : FinRecord) : List AnomalyNote :=
  if net_incomeD d > operating_incomeD d ∧ interest_expensesD d > 0 then
    [(⟨"Income Anomaly", "Medium"⟩ : AnomalyNote)]
  else []

/-- Anomaly check 2: current ratio below 1.  The `isinstance(..., (int,
float))` test on the stored ratio value is the `.num` match. -/
def noteLiquidityRisk (d : FinRecord) : List AnomalyNote :=
  match currentRatioValue d with
  | .num q =>
    if q < 1 then [(⟨"Liquidity Risk", if q < 4/5 then "High" else "Medium"⟩ : AnomalyNote)]
    else []
  | _ => []

/-- Anomaly check 3: debt ratio above 0.7. -/
def noteHighLeverage (d : FinRecord) : List AnomalyNote :=
  match debtRatioValue d with
  | .num q =>
    if q > 7/10 then [(⟨"High Leverage", if q > 4/5 then "High" else "Medium"⟩ : AnomalyNote)]
    else []
  | _ => []

/-- Anomaly check 4: operating cash flow negative, or below half of net
income, while net income is positive. -/
def noteCashFlowDiscrepancy (d : FinRecord) : List AnomalyNote :=
  if operating_cash_flowD d ≠ 0 ∧ net_incomeD d ≠ 0 then
    if operating_cash_flowD d < 0 ∧ net_incomeD d > 0 then
      [(⟨"Cash Flow Discrepancy", "High"⟩ : AnomalyNote)]
    else if operating_cash_flowD d / net_incomeD d < 1/2 ∧ net_incomeD d > 0 then
      [(⟨"Cash Flow Discrepancy", "Medium"⟩ : AnomalyNote)]
    else []
  else []

/-- The `"Anomalies"` list built at the end of
`calculate_financial_ratios`, in append order: Income Anomaly, Liquidity
Risk, High Leverage, Cash Flow Discrepancy. -/
def ratioAnomalies (d : FinRecord) : List AnomalyNote :=
  noteIncomeAnomaly d ++ noteLiquidityRisk d ++ noteHighLeverage d ++
    noteCashFlowDiscrepancy d

/-- langchain_integration.LangChainHandler.calculate_financial_ratios:
the deterministic ratio engine (`computeRatios` of the spec). Builds the
ordered ratio dictionary and the `"Anomalies"` list. -/
def calculate_financial_ratios (d : FinRecord) : RatiosOutput :=
  ⟨ratioEntriesBase d ++ growthEntries d ++ cashFlowEntries d, ratioAnomalies d⟩

/-- One red flag emitted by `detect_financial_red_flags` (`category`,
`issue`, `severity`; the formatted `details` string and the constant
`recommendation` string are presentation only and are not modelled). -/
structure RedFlag where
  category : String
  issue : String
  severity : String
deriving DecidableEq, Repr

/-- The dictionary returned by `detect_financial_red_flags`. -/
structure RedFlagsOutput where
  red_flags : List RedFlag
  has_critical_issues : Bool
  has_concerns : Bool
deriving DecidableEq

/-- The local `growth_rate` of `detect_financial_red_flags`: 0 when
`previous_year_sales` is not positive. -/
def growthRate (d : FinRecord) : ℚ :=
  if previous_year_salesD d > 0 then
    (net_salesD d - previous_year_salesD d) / previous_year_salesD d
  else 0

/-- Red-flag rule 1 of `detect_financial_red_flags`: revenue growth above
50% year over year. The raw fields are fetched with `.get(...)` and may be
`None`; Python truthiness guards the rule. -/
def flagRevenue (d : FinRecord) : List RedFlag :=
  if truthy d.income_statement.previous_year_sales && truthy d.income_statement.net_sales then
    if growthRate d > 1/2 then
      [(⟨"Revenue", "Unusually high revenue growth", "Medium"⟩ : RedFlag)]
    else []
  else []

/-- Red-flag rule 2: net income more than twice the operating cash flow. -/
def flagCashFlow (d : FinRecord) : List RedFlag :=
  if truthy d.income_statement.net_income && truthy d.cash_flow.operating_cash_flow
      && decide (net_incomeD d > operating_cash_flowD d * 2) then
    [(⟨"Cash Flow", "Net income significantly exceeds operating cash flow", "High"⟩ : RedFlag)]
  else []

/-- Red-flag rule 3: interest coverage ratio present (a number) and below
2; the `isinstance` test is the `.num` match. -/
def flagSolvency (ratios : RatiosOutput) : List RedFlag :=
  match (ratios.entries.lookup "Interest Coverage Ratio").map RatioEntry.value with
  | some (.num q) =>
    if q < 2 then
      [(⟨"Solvency", "Low interest coverage ratio",
         if q < 1 then "High" else "Medium"⟩ : RedFlag)]
    else []
  | _ => []

/-- Red-flag rule 4: current ratio present and below 1. -/
def flagLiquidity (ratios : RatiosOutput) : List RedFlag :=
  match (ratios.entries.lookup "Current Ratio").map RatioEntry.value with
  | some (.num q) =>
    if q < 1 then
      [(⟨"Liquidity", "Working capital deficiency",
         if q < 4/5 then "High" else "Medium"⟩ : RedFlag)]
    else []
  | _ => []

/-- langchain_integration.LangChainHandler.detect_financial_red_flags:
the rule-based red-flag scanner (`detectRedFlags` of the spec), appending
the four rules' flags in evaluation order. -/
def detect_financial_red_flags (d : FinRecord) (ratios : RatiosOutput) : RedFlagsOutput :=
  let flags := flagRevenue d ++ flagCashFlow d ++ flagSolvency ratios ++ flagLiquidity ratios
  ⟨flags, flags.any (fun f => f.severity == "High"), flags.length > 0⟩

/-!
backend.py, endpoint `detect_anomalies` (`detectColumnAnomalies` of the
spec): per-column mean/std threshold scan.  A TabularDataset is a list of
named numeric columns, all of equal length (the dataframe's rows).
`pandas.Series.std()` is the sample standard deviation (ddof = 1);
`row.get("Year", idx)` resolves the row identifier to the `Year` column's
value when such a column exists and to the positional index otherwise.
For a one-row column pandas produces a NaN standard deviation, so the
NaN-poisoned comparison flags nothing — in this embedding the ℚ division
by `0` in `colVar` yields `0` and the lone value equals the mean, so
nothing is flagged either.
-/

/-- Column mean (`Series.mean()`). -/
def colMean (xs : List ℚ) : ℚ := xs.sum / xs.length

/-- Sample variance, the square of `Series.std()` (ddof = 1). -/
def colVar (xs : List ℚ) : ℚ :=
  ((xs.map (fun v => (v - colMean xs) ^ 2)).sum) / ((xs.length - 1 : ℕ) : ℚ)

/-- The source's flagging test `abs(value - mean) > sensitivity * 2 * std`,
in the square-comparison form that avoids the irrational square root;
`zscoreFlag_iff` proves it equivalent to the literal formula over ℝ. -/
def zscoreFlag (m var s v : ℚ) : Bool :=
  if 0 ≤ s then decide ((v - m) ^ 2 > 4 * s ^ 2 * var) else decide (0 < var ∨ v ≠ m)

/-- One anomaly dictionary appended per flagged cell (keys `Year`,
`Column`, `Value`, `Mean`, `Deviation`, `Confidence`). -/
structure ScanRecord where
  rowId : ℚ
  column : String
  value : ℚ
  mean : ℚ
  deviation : ℚ
  confidence : ℝ

/-- The cells of one column that pass the flagging test, walking the rows
in order and carrying the positional index. -/
def flaggedIdx (m var s : ℚ) : ℕ → List ℚ → List (ℕ × ℚ)
  | _, [] => []
  | i, v :: vs =>
    (if zscoreFlag m var s v then [(i, v)] else []) ++ flaggedIdx m var s (i + 1) vs

/-- The flagged `(index, value)` cells of one column, in row order
(`financial_data[abs(financial_data[column] - mean) > threshold]`). -/
def flaggedRows (xs : List ℚ) (s : ℚ) : List (ℕ × ℚ) :=
  flaggedIdx (colMean xs) (colVar xs) s 0 xs

/-- The anomaly records of one column: `Confidence` is
`min(abs(value - mean) / (3 * std), 1.0)`. -/
noncomputable def scanColumn (years : Option (List ℚ)) (name : String) (xs : List ℚ)
    (s : ℚ) : List ScanRecord :=
  (flaggedRows xs s).map (fun p =>
    { rowId := match years with
               | some ys => (ys.get? p.1).getD (p.1 : ℚ)
               | none => (p.1 : ℚ)
      column := name
      value := p.2
      mean := colMean xs
      deviation := |p.2 - colMean xs|
      confidence :=
        min ((|p.2 - colMean xs| : ℚ) / (3 * Real.sqrt (colVar xs))) 1 })

/-- The endpoint's response body `{num_anomalies, anomalies}`. -/
structure ScanOutput where
  num_anomalies : ℕ
  anomalies : List ScanRecord

/-- backend.py `detect_anomalies`: scan every (numeric) column in order and
concatenate the per-column anomaly lists. -/
noncomputable def detect_anomalies (ds : List (String × List ℚ)) (s : ℚ) : ScanOutput :=
  let recs := (ds.map (fun c => scanColumn (ds.lookup "Year") c.1 c.2 s)).flatten
  ⟨recs.length, recs⟩

/-- The sample variance is nonnegative. -/
theorem colVar_nonneg (xs : List ℚ) : 0 ≤ colVar xs := by
  unfold colVar
  apply div_nonneg
  · apply List.sum_nonneg
    intro q hq
    obtain ⟨v, _, rfl⟩ := List.mem_map.mp hq
    positivity
  · positivity

/-- The square-comparison flag coincides with the source's literal test
`abs(value - mean) > sensitivity * 2 * std` over the reals, for any
nonnegative variance. -/
theorem zscoreFlag_iff (m var s v : ℚ) (hvar : 0 ≤ var) :
    zscoreFlag m var s v = true ↔
      ((s : ℚ) : ℝ) * 2 * Real.sqrt ((var : ℚ) : ℝ) < |((v : ℚ) : ℝ) - ((m : ℚ) : ℝ)| := by
  unfold zscoreFlag
  have hvr : (0 : ℝ) ≤ (var : ℚ) := by exact_mod_cast hvar
  have hsq : Real.sqrt (var : ℚ) ^ 2 = ((var : ℚ) : ℝ) := Real.sq_sqrt hvr
  have hsn : (0 : ℝ) ≤ Real.sqrt (var : ℚ) := Real.sqrt_nonneg _
  by_cases hs : (0 : ℚ) ≤ s
  · have hsr : (0 : ℝ) ≤ (s : ℚ) := by exact_mod_cast hs
    have hth : (0 : ℝ) ≤ (s : ℚ) * 2 * Real.sqrt (var : ℚ) := by positivity
    simp only [hs, if_true, decide_eq_true_eq]
    constructor
    · intro h
      have h' : (((v : ℚ) : ℝ) - ((m : ℚ) : ℝ)) ^ 2 > 4 * ((s : ℚ) : ℝ) ^ 2 * ((var : ℚ) : ℝ) := by
        exact_mod_cast h
      nlinarith [sq_abs (((v : ℚ) : ℝ) - ((m : ℚ) : ℝ)),
        abs_nonneg (((v : ℚ) : ℝ) - ((m : ℚ) : ℝ)), hsq, hsn, hth]
    · intro h
      have h' : (((v : ℚ) : ℝ) - ((m : ℚ) : ℝ)) ^ 2 > 4 * ((s : ℚ) : ℝ) ^ 2 * ((var : ℚ) : ℝ) := by
        nlinarith [sq_abs (((v : ℚ) : ℝ) - ((m : ℚ) : ℝ)),
          abs_nonneg (((v : ℚ) : ℝ) - ((m : ℚ) : ℝ)), hsq, hsn, hth]
      exact_mod_cast h'
  · have hsr : ((s : ℚ) : ℝ) < 0 := by exact_mod_cast lt_of_not_le hs
    simp only [hs, if_false, decide_eq_true_eq]
    constructor
    · rintro (hv | hne)
      · have h1 : 0 < Real.sqrt (var : ℚ) := Real.sqrt_pos.mpr (by exact_mod_cast hv)
        have h2 : (s : ℚ) * 2 * Real.sqrt (var : ℚ) < 0 := by nlinarith
        exact lt_of_lt_of_le h2 (abs_nonneg _)
      · have h1 : (0 : ℝ) < |((v : ℚ) : ℝ) - ((m : ℚ) : ℝ)| := by
          apply abs_pos.mpr
          intro hc
          exact hne (by exact_mod_cast sub_eq_zero.mp hc)
        have h2 : (s : ℚ) * 2 * Real.sqrt (var : ℚ) ≤ 0 := by nlinarith
        exact lt_of_le_of_lt h2 h1
    · intro h
      by_contra hcon
      push_neg at hcon
      obtain ⟨hv, hm⟩ := hcon
      have hv0 : var = 0 := le_antisymm hv hvar
      have hm' : ((v : ℚ) : ℝ) - ((m : ℚ) : ℝ) = 0 := by
        rw [sub_eq_zero]; exact_mod_cast hm
      rw [hv0] at h
      simp only [Rat.cast_zero, Real.sqrt_zero, mul_zero, hm', abs_zero] at h
      exact lt_irrefl 0 h

/-!
anomaly.py (`detectReconstructionAnomalies` of the spec): the
reconstruction-error scan through the `FinancialVAE` autoencoder.  The
model weights and the feature scaler are the externally persisted
artifacts, passed in explicitly; the fresh Gaussian sample that
`FinancialVAE.reparameterize` draws with `torch.randn_like(std)` on every
forward pass — including in `eval()` mode — is modelled as an explicit
noise argument `eps`, one latent-dimensional row per data row.  The
`DataLoader` with `shuffle=False` only partitions the rows into batches
and the per-row errors are concatenated back in order, so the embedding
computes them row by row.
-/

/-- One `nn.Linear` layer: row-major weight matrix and bias vector. -/
structure Layer where
  w : List (List ℝ)
  b : List ℝ

/-- `y = W x + b`. -/
noncomputable def linear (l : Layer) (x : List ℝ) : List ℝ :=
  (l.w.zip l.b).map (fun rb => (List.zipWith (· * ·) rb.1 x).sum + rb.2)

/-- `nn.ReLU`. -/
noncomputable def relu (x : ℝ) : ℝ := max x 0

noncomputable def reluVec (xs : List ℝ) : List ℝ := xs.map relu

/-- The weights of `FinancialVAE` (encoder `Linear-ReLU-Linear-ReLU`, the
`fc_mu`/`fc_var` heads, decoder `Linear-ReLU-Linear-ReLU-Linear`). -/
structure VAEParams where
  enc1 : Layer
  enc2 : Layer
  fc_mu : Layer
  fc_var : Layer
  dec1 : Layer
  dec2 : Layer
  dec3 : Layer

/-- `FinancialVAE.encode`. -/
noncomputable def encode (p : VAEParams) (x : List ℝ) : List ℝ × List ℝ :=
  let h := reluVec (linear p.enc2 (reluVec (linear p.enc1 x)))
  (linear p.fc_mu h, linear p.fc_var h)

/-- `FinancialVAE.reparameterize`: `mu + eps * exp(0.5 * log_var)`, with
the Gaussian sample `eps` made explicit. -/
noncomputable def reparameterize (mu log_var eps : List ℝ) : List ℝ :=
  List.zipWith (fun me e => me.1 + e * Real.exp (0.5 * me.2)) (mu.zip log_var) eps

/-- `FinancialVAE.decode`. -/
noncomputable def decode (p : VAEParams) (z : List ℝ) : List ℝ :=
  linear p.dec3 (reluVec (linear p.dec2 (reluVec (linear p.dec1 z))))

/-- `FinancialVAE.forward`, reconstruction component. -/
noncomputable def vaeForward (p : VAEParams) (x eps : List ℝ) : List ℝ :=
  let ml := encode p x
  decode p (reparameterize ml.1 ml.2 eps)

/-- The persisted `StandardScaler` state (`mean_`, `scale_`). -/
structure Scaler where
  mean : List ℝ
  scale : List ℝ

/-- `StandardScaler.transform` on one row: `(x - mean) / scale`. -/
noncomputable def scalerTransform (sc : Scaler) (x : List ℝ) : List ℝ :=
  List.zipWith (fun ms xi => (xi - ms.1) / ms.2) (sc.mean.zip sc.scale) x

/-- Per-row reconstruction error,
`torch.mean((recon_batch - batch) ** 2, dim=1)`. -/
noncomputable def rowError (p : VAEParams) (sc : Scaler) (x eps : List ℝ) : ℝ :=
  let xb := scalerTransform sc x
  let r := vaeForward p xb eps
  ((List.zipWith (fun a b => (a - b) ^ 2) r xb).sum) / (xb.length : ℝ)

/-- `np.mean`. -/
noncomputable def npMean (xs : List ℝ) : ℝ := xs.sum / xs.length

/-- `np.std` (population standard deviation, ddof = 0). -/
noncomputable def npStd (xs : List ℝ) : ℝ :=
  Real.sqrt (((xs.map (fun e => (e - npMean xs) ^ 2)).sum) / (xs.length : ℝ))

/-- One row of the dataframe after `detect_anomalies_in_data` has stored
its results: the original numeric row plus the appended
`Reconstruction_Error` and `Anomaly` (0/1) columns. -/
structure ReconRow where
  row : List ℝ
  err : ℝ
  anomaly : ℕ

/-- The outcome of `detect_anomalies_in_data`: the mutated dataframe
(`table`, the caller's `financial_data` after the two column
assignments) and the returned payload `{num_anomalies, anomalies}`. -/
structure ReconOutput where
  table : List ReconRow
  num_anomalies : ℕ
  anomalies : List ReconRow

/-- The local `reconstruction_errors` of `detect_anomalies_in_data`: one
error per data row, each row paired with its own fresh noise sample. -/
noncomputable def reconErrors (X : List (List ℝ)) (p : VAEParams) (sc : Scaler)
    (eps : List (List ℝ)) : List ℝ :=
  List.zipWith (fun x e => rowError p sc x e) X eps

/-- The local `threshold` of `detect_anomalies_in_data`:
`np.mean(errors) + threshold_multiplier * np.std(errors)`. -/
noncomputable def reconThreshold (X : List (List ℝ)) (p : VAEParams) (sc : Scaler)
    (tm : ℝ) (eps : List (List ℝ)) : ℝ :=
  npMean (reconErrors X p sc eps) + tm * npStd (reconErrors X p sc eps)

/-- anomaly.py `detect_anomalies_in_data`: reconstruction errors for every
row, threshold `np.mean(errors) + threshold_multiplier * np.std(errors)`,
rows strictly above the threshold flagged `Anomaly = 1` in the mutated
dataframe, and the flagged rows (with the two appended columns) returned
as the anomaly records. -/
noncomputable def detect_anomalies_in_data (X : List (List ℝ)) (p : VAEParams) (sc : Scaler)
    (tm : ℝ) (eps : List (List ℝ)) : ReconOutput :=
  let errs := reconErrors X p sc eps
  let threshold := reconThreshold X p sc tm eps
  let table := List.zipWith
    (fun x er => (⟨x, er, if threshold < er then 1 else 0⟩ : ReconRow)) X errs
  let anomalies := table.filter (fun r => decide (r.anomaly = 1))
  ⟨table, (errs.filter (fun e => decide (threshold < e))).length, anomalies⟩

/-- The spec's "mean squared deviation" between two equally long feature
vectors (the reconstruction and the standardized row). -/
noncomputable def meanSqDev (u w : List ℝ) : ℝ :=
  ((List.zipWith (fun a b => (a - b) ^ 2) u w).sum) / (w.length : ℝ)

/-! Concrete records used to instantiate the theorems below. -/

/-- A record whose income statement reports a nonzero gross profit but zero
net sales. -/
def recZeroSales : FinRecord where
  income_statement :=
    { net_sales := some 0
      gross_profit := some 5 }

/-- The empty record: every field absent. -/
def recEmpty : FinRecord := {}

/-- A record where `net_sales` is present but zero while
`previous_year_sales` is present and nonzero. -/
def recZeroPrev : FinRecord where
  income_statement :=
    { net_sales := some 0
      previous_year_sales := some 50 }

/-- A record with 60% year-over-year sales growth, interest coverage 1 and
debt ratio 0.8. -/
def recGrowth : FinRecord where
  income_statement :=
    { net_sales := some 160
      previous_year_sales := some 100
      operating_income := some 10
      interest_expenses := some 10 }
  balance_sheet :=
    { total_liabilities := some 80
      total_assets := some 100 }

/-- The `ratio_value` stored under a given ratio name. -/
def ratioValueOf (d : FinRecord) (name : String) : Option RVal :=
  ((calculate_financial_ratios d).entries.lookup name).map RatioEntry.value

/-- C1 counterexample: on a record with `gross_profit = 5` and
`net_sales = 0`, `calculate_financial_ratios` stores the `"N/A"` sentinel
— not `0.0` — as the Gross Margin ratio value, because `safe_calculate`'s
zero-denominator guard returns its default before
`calculate_gross_margin_ratio` is ever called. -/
theorem gross_margin_zero_denominator_is_na :
    ratioValueOf recZeroSales "Gross Margin Ratio" = some RVal.na ∧
      RVal.na ≠ RVal.num 0 := by
  constructor
  · rfl
  · decide

/-- C1 amended: within `calculate_financial_ratios`, a zero denominator
makes every margin/return ratio (Gross Margin, Operating Margin, Return on
Assets, Return on Equity) report the `"N/A"` sentinel; the `0.0`-on-zero
convention lives only in the underlying financial_tools functions, which
do return `0.0` when called directly with a zero denominator. -/
theorem margin_ratios_zero_denominator_policy (d : FinRecord) :
    (net_salesD d = 0 →
      ratioValueOf d "Gross Margin Ratio" = some RVal.na ∧
      ratioValueOf d "Operating Margin Ratio" = some RVal.na) ∧
    (total_assetsD d = 0 → ratioValueOf d "Return on Assets Ratio" = some RVal.na) ∧
    (shareholders_equityD d = 0 → ratioValueOf d "Return on Equity Ratio" = some RVal.na) ∧
    (∀ x : ℚ,
      calculate_gross_margin_ratio x 0 = RVal.num 0 ∧
      calculate_operating_margin_ratio x 0 = RVal.num 0 ∧
      calculate_return_on_assets_ratio x 0 = RVal.num 0 ∧
      calculate_return_on_equity_ratio x 0 = RVal.num 0) := by
  refine ⟨fun h => ?_, fun h => ?_, fun h => ?_, fun x => ⟨rfl, rfl, rfl, rfl⟩⟩ <;>
    simp [ratioValueOf, calculate_financial_ratios, ratioEntriesBase, growthEntries,
      cashFlowEntries, List.lookup, safe_calculate, h]

/-- Witness for `margin_ratios_zero_denominator_policy` at `recZeroSales`. -/
theorem margin_ratios_zero_denominator_policy_w :
    net_salesD recZeroSales = 0 ∧
      (ratioValueOf recZeroSales "Gross Margin Ratio" = some RVal.na ∧
       ratioValueOf recZeroSales "Operating Margin Ratio" = some RVal.na) :=
  ⟨by decide, (margin_ratios_zero_denominator_policy recZeroSales).1 (by decide)⟩

/-- C2: for every ratio under the "not applicable" zero-denominator policy
(Current Ratio, Cash Ratio, Debt-to-Equity, Interest Coverage), a zero
denominator makes `calculate_financial_ratios` store the one `"N/A"`
sentinel — the embedded computation is total (nothing is raised) and the
stored value is the sentinel, never `float('inf')`, because
`safe_calculate` guards the zero denominator before the `inf`-producing
tool functions can run. -/
theorem na_sentinel_zero_denominator (d : FinRecord) :
    (current_liabilitiesD d = 0 →
      ratioValueOf d "Current Ratio" = some RVal.na ∧
      ratioValueOf d "Cash Ratio" = some RVal.na) ∧
    (shareholders_equityD d = 0 → ratioValueOf d "Debt to Equity Ratio" = some RVal.na) ∧
    (interest_expensesD d = 0 → ratioValueOf d "Interest Coverage Ratio" = some RVal.na) := by
  refine ⟨fun h => ?_, fun h => ?_, fun h => ?_⟩ <;>
    simp [ratioValueOf, calculate_financial_ratios, ratioEntriesBase, growthEntries,
      cashFlowEntries, List.lookup, safe_calculate, currentRatioValue, h]

/-- Witness for `na_sentinel_zero_denominator` at the empty record. -/
theorem na_sentinel_zero_denominator_w :
    (current_liabilitiesD recEmpty = 0 ∧ shareholders_equityD recEmpty = 0 ∧
      interest_expensesD recEmpty = 0) ∧
    (ratioValueOf recEmpty "Current Ratio" = some RVal.na ∧
      ratioValueOf recEmpty "Cash Ratio" = some RVal.na) ∧
    ratioValueOf recEmpty "Debt to Equity Ratio" = some RVal.na ∧
    ratioValueOf recEmpty "Interest Coverage Ratio" = some RVal.na :=
  ⟨⟨by decide, by decide, by decide⟩,
    (na_sentinel_zero_denominator recEmpty).1 (by decide),
    (na_sentinel_zero_denominator recEmpty).2.1 (by decide),
    (na_sentinel_zero_denominator recEmpty).2.2 (by decide)⟩

/-- C4 counterexample: `recGrowth` triggers rule 1 (60% revenue growth),
rule 3 (interest coverage 1 < 2) and the debt-ratio > 0.7 condition (debt
ratio 0.8), yet the sequence returned by `detect_financial_red_flags`
consists of the Revenue and Solvency flags only — the High Leverage
condition is never part of that sequence, because it is reported by
`calculate_financial_ratios` under the separate `"Anomalies"` key. -/
theorem high_leverage_not_in_red_flags :
    debtRatioValue recGrowth = RVal.num (4/5) ∧ (7/10 : ℚ) < 4/5 ∧
    ((detect_financial_red_flags recGrowth
        (calculate_financial_ratios recGrowth)).red_flags.map RedFlag.category)
      = ["Revenue", "Solvency"] := by
  have e1 : flagRevenue recGrowth =
      [⟨"Revenue", "Unusually high revenue growth", "Medium"⟩] := by
    simp [flagRevenue, growthRate, truthy, recGrowth, previous_year_salesD, net_salesD]
    norm_num
  have e2 : flagCashFlow recGrowth = [] := by
    simp [flagCashFlow, truthy, recGrowth]
  have e3 : flagSolvency (calculate_financial_ratios recGrowth) =
      [⟨"Solvency", "Low interest coverage ratio", "Medium"⟩] := by
    simp [flagSolvency, calculate_financial_ratios, ratioEntriesBase, growthEntries,
      cashFlowEntries, List.lookup, safe_calculate, calculate_interest_coverage_ratio,
      operating_incomeD, interest_expensesD, recGrowth]
  have e4 : flagLiquidity (calculate_financial_ratios recGrowth) = [] := by
    simp [flagLiquidity, calculate_financial_ratios, ratioEntriesBase, growthEntries,
      cashFlowEntries, List.lookup, safe_calculate, currentRatioValue,
      calculate_current_ratio, current_assetsD, current_liabilitiesD, recGrowth]
  refine ⟨?_, by norm_num, ?_⟩
  · simp [debtRatioValue, safe_calculate, calculate_debt_ratio,
      total_liabilitiesD, total_assetsD, recGrowth]
    norm_num
  · simp [detect_financial_red_flags, e1, e2, e3, e4]

/-- C4 amended: on every record triggering rule 1 (revenue growth > 50%)
and rule 3 (interest coverage < 2), `detect_financial_red_flags` reports
the Revenue flag before the Solvency flag; the debt-ratio > 0.7 condition
(rule 6 of the spec) is reported as a `"High Leverage"` entry of the
`"Anomalies"` list of `calculate_financial_ratios`, not as a member of the
red-flag sequence. -/
theorem red_flag_relative_order (d : FinRecord)
    (h1a : truthy d.income_statement.previous_year_sales = true)
    (h1b : truthy d.income_statement.net_sales = true)
    (h1c : growthRate d > 1/2)
    (h3 : ∃ q : ℚ, ratioValueOf d "Interest Coverage Ratio" = some (RVal.num q) ∧ q < 2)
    (h6 : ∃ r : ℚ, debtRatioValue d = RVal.num r ∧ r > 7/10) :
    List.Sublist ["Revenue", "Solvency"]
      ((detect_financial_red_flags d (calculate_financial_ratios d)).red_flags.map
        RedFlag.category) ∧
    ∃ a ∈ (calculate_financial_ratios d).anomalies, a.typ = "High Leverage" := by
  obtain ⟨q, hq, hq2⟩ := h3
  obtain ⟨r, hr, hr2⟩ := h6
  constructor
  · have e1 : flagRevenue d = [⟨"Revenue", "Unusually high revenue growth", "Medium"⟩] := by
      simp [flagRevenue, h1a, h1b, h1c]
      linarith
    have e3 : flagSolvency (calculate_financial_ratios d) =
        [⟨"Solvency", "Low interest coverage ratio", if q < 1 then "High" else "Medium"⟩] := by
      have hq' : ((calculate_financial_ratios d).entries.lookup
          "Interest Coverage Ratio").map RatioEntry.value = some (RVal.num q) := hq
      simp [flagSolvency, hq', hq2]
    simp only [detect_financial_red_flags, e1, e3, List.map_append, List.append_assoc,
      List.map_cons, List.map_nil, List.singleton_append, List.cons_append]
    refine List.Sublist.cons₂ _ (List.singleton_sublist.mpr ?_)
    simp
  · refine ⟨⟨"High Leverage", if r > 4/5 then "High" else "Medium"⟩, ?_, rfl⟩
    have e6 : noteHighLeverage d =
        [⟨"High Leverage", if r > 4/5 then "High" else "Medium"⟩] := by
      simp [noteHighLeverage, hr, hr2]
    show _ ∈ ratioAnomalies d
    unfold ratioAnomalies
    rw [e6]
    simp

/-- Witness for `red_flag_relative_order` at `recGrowth`. -/
theorem red_flag_relative_order_w :
    List.Sublist ["Revenue", "Solvency"]
      ((detect_financial_red_flags recGrowth
          (calculate_financial_ratios recGrowth)).red_flags.map RedFlag.category) ∧
    ∃ a ∈ (calculate_financial_ratios recGrowth).anomalies, a.typ = "High Leverage" :=
  red_flag_relative_order recGrowth (by rfl) (by rfl)
    (by simp [growthRate, previous_year_salesD, net_salesD, recGrowth]; norm_num)
    ⟨1, by simp [ratioValueOf, calculate_financial_ratios, ratioEntriesBase,
        growthEntries, cashFlowEntries, List.lookup, safe_calculate,
        calculate_interest_coverage_ratio, operating_incomeD, interest_expensesD, recGrowth],
      by norm_num⟩
    ⟨4/5, by simp [debtRatioValue, safe_calculate, calculate_debt_ratio,
        total_liabilitiesD, total_assetsD, recGrowth]; norm_num,
      by norm_num⟩

/-- C9 counterexample: on a record where `net_sales` is present but equal
to 0 and `previous_year_sales` is present and nonzero, the claim says the
Sales Growth entry is included (denominator nonzero), but
`calculate_financial_ratios` omits it, because the guard tests Python
truthiness of both operands and `net_sales = 0` is falsy. -/
theorem sales_growth_absent_when_net_sales_zero :
    recZeroPrev.income_statement.net_sales = some 0 ∧
    recZeroPrev.income_statement.previous_year_sales = some 50 ∧
    (calculate_financial_ratios recZeroPrev).entries.lookup "Sales Growth" = none := by
  refine ⟨rfl, rfl, ?_⟩
  simp [calculate_financial_ratios, ratioEntriesBase, growthEntries, cashFlowEntries,
    List.lookup, net_salesD, previous_year_salesD, previous_year_net_incomeD, net_incomeD,
    previous_year_total_assetsD, total_assetsD, operating_cash_flowD, recZeroPrev]

/-- C9 amended: the Sales Growth entry is present exactly when both
`net_sales` and `previous_year_sales` are present and *nonzero* (Python
truthiness), in which case its value is
`(net_sales - previous_year_sales) / previous_year_sales * 100`; when that
growth exceeds 50% the Revenue red flag fires. -/
theorem sales_growth_presence_and_value (d : FinRecord) :
    ((calculate_financial_ratios d).entries.lookup "Sales Growth" ≠ none ↔
      previous_year_salesD d ≠ 0 ∧ net_salesD d ≠ 0) ∧
    (previous_year_salesD d ≠ 0 → net_salesD d ≠ 0 →
      ratioValueOf d "Sales Growth" =
        some (RVal.num (((net_salesD d - previous_year_salesD d) /
          previous_year_salesD d) * 100))) ∧
    (truthy d.income_statement.previous_year_sales = true →
     truthy d.income_statement.net_sales = true →
     growthRate d > 1/2 →
     "Revenue" ∈ ((detect_financial_red_flags d (calculate_financial_ratios d)).red_flags.map
        RedFlag.category)) := by
  have key : (calculate_financial_ratios d).entries.lookup "Sales Growth" =
      (if previous_year_salesD d ≠ 0 ∧ net_salesD d ≠ 0 then
        some ⟨[net_salesD d, previous_year_salesD d],
          if previous_year_salesD d ≠ 0 then
            RVal.num (((net_salesD d - previous_year_salesD d) / previous_year_salesD d) * 100)
          else RVal.na⟩
      else none) := by
    simp only [calculate_financial_ratios, ratioEntriesBase, growthEntries, cashFlowEntries]
    split_ifs <;> simp_all [List.lookup]
  refine ⟨?_, fun hp hn => ?_, fun h1a h1b h1c => ?_⟩
  · rw [key]
    split_ifs with h <;> simp [h]
  · simp [ratioValueOf, key, hp, hn]
  · have e1 : flagRevenue d = [⟨"Revenue", "Unusually high revenue growth", "Medium"⟩] := by
      simp [flagRevenue, h1a, h1b, h1c]
      linarith
    simp [detect_financial_red_flags, e1]

/-- Witness for `sales_growth_presence_and_value` at `recGrowth`
(`previous_year_sales = 100`, `net_sales = 160`): Sales Growth is 60% and
the Revenue red flag fires. -/
theorem sales_growth_presence_and_value_w :
    ratioValueOf recGrowth "Sales Growth" = some (RVal.num 60) ∧
    "Revenue" ∈ ((detect_financial_red_flags recGrowth
        (calculate_financial_ratios recGrowth)).red_flags.map RedFlag.category) := by
  constructor
  · have h := (sales_growth_presence_and_value recGrowth).2.1
      (by simp [previous_year_salesD, recGrowth])
      (by simp [net_salesD, recGrowth])
    rw [h]
    simp [net_salesD, previous_year_salesD, recGrowth]
    norm_num
  · exact (sales_growth_presence_and_value recGrowth).2.2 (by rfl) (by rfl)
      (by simp [growthRate, previous_year_salesD, net_salesD, recGrowth]; norm_num)

/-- C3 counterexample: on the single-column dataset `[10,10,10,10,100]`
with sensitivity 1.0, `detect_anomalies` does not return exactly one
anomaly record — the deviation of 100 from the mean 28 is 72, while the
threshold `1.0 × 2 × std` uses the sample standard deviation
`√1620 ≈ 40.25`, giving a threshold of about 80.5, so nothing is
flagged. -/
theorem zscore_example_not_one_anomaly :
    (detect_anomalies [("col", [10, 10, 10, 10, 100])] 1).num_anomalies ≠ 1 := by
  have hm : colMean [10, 10, 10, 10, 100] = 28 := by norm_num [colMean]
  have hv : colVar [10, 10, 10, 10, 100] = 1620 := by norm_num [colVar, hm]
  simp [detect_anomalies, scanColumn, flaggedRows, flaggedIdx, zscoreFlag, hm, hv,
    List.lookup]
  norm_num

/-- C3 amended: on the single-column dataset `[10,10,10,10,100]` with
sensitivity 1.0, the column scan returns zero anomaly records: the
deviation 72 of the value 100 does not exceed the threshold
`2 × √1620 ≈ 80.5`. -/
theorem zscore_example_zero_anomalies :
    (detect_anomalies [("col", [10, 10, 10, 10, 100])] 1).num_anomalies = 0 ∧
    (detect_anomalies [("col", [10, 10, 10, 10, 100])] 1).anomalies = [] := by
  have hm : colMean [10, 10, 10, 10, 100] = 28 := by norm_num [colMean]
  have hv : colVar [10, 10, 10, 10, 100] = 1620 := by norm_num [colVar, hm]
  constructor <;>
    simp [detect_anomalies, scanColumn, flaggedRows, flaggedIdx, zscoreFlag, hm, hv,
      List.lookup] <;>
    norm_num

/-- The sum of a constant list. -/
theorem sum_of_const (xs : List ℚ) (c : ℚ) (h : ∀ v ∈ xs, v = c) :
    xs.sum = c * xs.length := by
  induction xs with
  | nil => simp
  | cons a as ih =>
    have ha : a = c := h a (List.mem_cons_self a as)
    have ih' := ih (fun v hv => h v (List.mem_cons_of_mem a hv))
    simp [ha, ih']
    ring

/-- A constant column has its constant as mean (nonempty case). -/
theorem colMean_const (xs : List ℚ) (c : ℚ) (hne : xs ≠ []) (h : ∀ v ∈ xs, v = c) :
    colMean xs = c := by
  have hl0 : xs.length ≠ 0 := (List.length_pos.mpr hne).ne'
  have hl : (xs.length : ℚ) ≠ 0 := by exact_mod_cast hl0
  rw [colMean, sum_of_const xs c h, mul_div_assoc, div_self hl, mul_one]

/-- A constant column has zero sample variance. -/
theorem colVar_const (xs : List ℚ) (c : ℚ) (h : ∀ v ∈ xs, v = c) :
    colVar xs = 0 := by
  rcases eq_or_ne xs [] with rfl | hne
  · simp [colVar, colMean]
  · rw [colVar]
    have : ∀ q ∈ xs.map (fun v => (v - colMean xs) ^ 2), q = 0 := by
      intro q hq
      obtain ⟨v, hv, rfl⟩ := List.mem_map.mp hq
      rw [h v hv, colMean_const xs c hne h]
      ring
    rw [List.sum_eq_zero this, zero_div]

/-- The flagging test always fails at the constant itself when the
variance is zero. -/
theorem zscoreFlag_const_false (c s : ℚ) : zscoreFlag c 0 s c = false := by
  unfold zscoreFlag
  split_ifs <;> simp

/-- All cells of a constant column fail the flagging test. -/
theorem flaggedIdx_const_nil (c s : ℚ) (xs : List ℚ) (h : ∀ v ∈ xs, v = c) (i : ℕ) :
    flaggedIdx c 0 s i xs = [] := by
  induction xs generalizing i with
  | nil => rfl
  | cons a as ih =>
    have ha : a = c := h a (List.mem_cons_self a as)
    simp [flaggedIdx, ha, zscoreFlag_const_false,
      ih (fun v hv => h v (List.mem_cons_of_mem a hv))]

/-- C7: a column whose values are all equal yields no anomaly records,
whatever the sensitivity (positive, zero or negative) — in particular the
`3σ` division in the confidence formula is never reached. -/
theorem constant_column_no_anomalies (years : Option (List ℚ)) (name : String)
    (xs : List ℚ) (c s : ℚ) (h : ∀ v ∈ xs, v = c) :
    scanColumn years name xs s = [] := by
  rcases eq_or_ne xs [] with rfl | hne
  · rfl
  · unfold scanColumn flaggedRows
    rw [colMean_const xs c hne h, colVar_const xs c h,
      flaggedIdx_const_nil c s xs h 0]
    rfl

/-- Witness for `constant_column_no_anomalies`: the constant column
`[5,5,5]` with the (negative) sensitivity -2. -/
theorem constant_column_no_anomalies_w :
    (∀ v ∈ ([5, 5, 5] : List ℚ), v = 5) ∧
    scanColumn none "c" [5, 5, 5] (-2) = [] :=
  ⟨by simp, constant_column_no_anomalies none "c" [5, 5, 5] 5 (-2) (by simp)⟩

/-- C8: every anomaly record emitted by the per-column z-score scan has a
confidence between 0 and 1: it is `min(·, 1.0)` of a quotient of
nonnegative quantities. -/
theorem zscore_confidence_bounds (ds : List (String × List ℚ)) (s : ℚ) (i : ℕ)
    (h : i < (detect_anomalies ds s).anomalies.length) :
    0 ≤ ((detect_anomalies ds s).anomalies.get ⟨i, h⟩).confidence ∧
    ((detect_anomalies ds s).anomalies.get ⟨i, h⟩).confidence ≤ 1 := by
  have hmem : (detect_anomalies ds s).anomalies.get ⟨i, h⟩ ∈
      (ds.map (fun c => scanColumn (ds.lookup "Year") c.1 c.2 s)).flatten :=
    List.get_mem _ _ h
  obtain ⟨l, hl, hrl⟩ := List.mem_flatten.mp hmem
  obtain ⟨cpair, _, rfl⟩ := List.mem_map.mp hl
  obtain ⟨p, _, hpr⟩ := List.mem_map.mp hrl
  rw [← hpr]
  constructor
  · apply le_min
    · apply div_nonneg
      · exact_mod_cast abs_nonneg (p.2 - colMean cpair.2)
      · positivity
    · norm_num
  · exact min_le_right _ _

/-- Witness for `zscore_confidence_bounds`: the column `[0,1,2]` with
sensitivity `1/4` flags two rows (mean 1, sample variance 1, threshold
`1/2`); the first record's confidence is within `[0,1]`. -/
theorem zscore_confidence_bounds_w :
    ∃ h : 0 < (detect_anomalies [("c", [0, 1, 2])] (1/4)).anomalies.length,
      0 ≤ ((detect_anomalies [("c", [0, 1, 2])] (1/4)).anomalies.get ⟨0, h⟩).confidence ∧
      ((detect_anomalies [("c", [0, 1, 2])] (1/4)).anomalies.get ⟨0, h⟩).confidence ≤ 1 := by
  have hm : colMean [0, 1, 2] = 1 := by norm_num [colMean]
  have hv : colVar [0, 1, 2] = 1 := by norm_num [colVar, hm]
  have hlen : 0 < (detect_anomalies [("c", [0, 1, 2])] (1/4)).anomalies.length := by
    simp [detect_anomalies, scanColumn, flaggedRows, flaggedIdx, zscoreFlag, hm, hv,
      List.lookup]
    norm_num
  exact ⟨hlen, zscore_confidence_bounds [("c", [0, 1, 2])] (1/4) 0 hlen⟩

/-! Helper lemmas about `List.zipWith` projections, used to read the
columns back out of the zipped result table of the reconstruction scan. -/

theorem zipWith_snd_map {α β γ : Type} (g : β → γ) :
    ∀ (as : List α) (bs : List β), bs.length ≤ as.length →
      List.zipWith (fun _ b => g b) as bs = bs.map g := by
  intro as
  induction as with
  | nil => intro bs h; simp at h; simp [h]
  | cons a as ih =>
    intro bs h
    cases bs with
    | nil => rfl
    | cons b bs => simp_all [List.zipWith, ih bs]

theorem zipWith_fst_map {α β γ : Type} (g : α → γ) :
    ∀ (as : List α) (bs : List β), as.length ≤ bs.length →
      List.zipWith (fun a _ => g a) as bs = as.map g := by
  intro as
  induction as with
  | nil => intro bs _; rfl
  | cons a as ih =>
    intro bs h
    cases bs with
    | nil => simp at h
    | cons b bs => simp_all [List.zipWith, ih bs]

theorem mem_of_mem_zipWith {α β γ : Type} {f : α → β → γ} :
    ∀ {as : List α} {bs : List β} {c : γ}, c ∈ List.zipWith f as bs → ∃ a b, c = f a b := by
  intro as
  induction as with
  | nil => intro bs c h; simp at h
  | cons a as ih =>
    intro bs c h
    cases bs with
    | nil => simp at h
    | cons b bs =>
      rcases List.mem_cons.mp h with h | h
      · exact ⟨a, b, h⟩
      · exact ih h

/-- C6: in `detect_anomalies_in_data`, each row's anomaly score is the
mean squared deviation between the standardized input row and its (noise
dependent) reconstruction; the threshold is
`mean(errors) + threshold_multiplier × std(errors)` over the whole batch;
a row's `Anomaly` mark is 1 exactly when its error strictly exceeds that
threshold; and `num_anomalies` counts the rows whose error strictly
exceeds the threshold. -/
theorem recon_error_threshold_flagging (X : List (List ℝ)) (p : VAEParams) (sc : Scaler)
    (tm : ℝ) (eps : List (List ℝ)) :
    reconErrors X p sc eps = List.zipWith
      (fun x e => meanSqDev (vaeForward p (scalerTransform sc x) e) (scalerTransform sc x))
      X eps ∧
    reconThreshold X p sc tm eps =
      npMean (reconErrors X p sc eps) + tm * npStd (reconErrors X p sc eps) ∧
    (detect_anomalies_in_data X p sc tm eps).table.map ReconRow.anomaly =
      (reconErrors X p sc eps).map
        (fun er => if reconThreshold X p sc tm eps < er then 1 else 0) ∧
    (detect_anomalies_in_data X p sc tm eps).num_anomalies =
      ((reconErrors X p sc eps).filter
        (fun er => decide (reconThreshold X p sc tm eps < er))).length := by
  refine ⟨rfl, rfl, ?_, rfl⟩
  have hmap : (detect_anomalies_in_data X p sc tm eps).table.map ReconRow.anomaly =
      List.zipWith (fun _ er => if reconThreshold X p sc tm eps < er then 1 else 0)
        X (reconErrors X p sc eps) := by
    simp [detect_anomalies_in_data, List.map_zipWith]
  rw [hmap]
  apply zipWith_snd_map
  calc (reconErrors X p sc eps).length
      = min X.length eps.length := List.length_zipWith _ _ _
    _ ≤ X.length := min_le_left _ _

/-- C10: `detect_anomalies_in_data` mutates the caller's dataframe — the
resulting table keeps every original row (in order) and appends to each a
`Reconstruction_Error` value and a 0/1 `Anomaly` mark — and the returned
anomaly records are exactly the table rows marked 1, these two appended
fields included. -/
theorem recon_table_mutation (X : List (List ℝ)) (p : VAEParams) (sc : Scaler)
    (tm : ℝ) (eps : List (List ℝ)) (hl : eps.length = X.length) :
    (detect_anomalies_in_data X p sc tm eps).table.map ReconRow.row = X ∧
    (detect_anomalies_in_data X p sc tm eps).table.map ReconRow.err =
      reconErrors X p sc eps ∧
    (∀ r ∈ (detect_anomalies_in_data X p sc tm eps).table, r.anomaly = 0 ∨ r.anomaly = 1) ∧
    (detect_anomalies_in_data X p sc tm eps).anomalies =
      (detect_anomalies_in_data X p sc tm eps).table.filter
        (fun r => decide (r.anomaly = 1)) := by
  have hlen : (reconErrors X p sc eps).length = X.length := by
    rw [reconErrors, List.length_zipWith, hl, min_self]
  refine ⟨?_, ?_, ?_, rfl⟩
  · have hmap : (detect_anomalies_in_data X p sc tm eps).table.map ReconRow.row =
        List.zipWith (fun x _ => x) X (reconErrors X p sc eps) := by
      simp [detect_anomalies_in_data, List.map_zipWith]
    rw [hmap]
    have := zipWith_fst_map (γ := List ℝ) id X (reconErrors X p sc eps) (le_of_eq hlen.symm)
    simpa using this
  · have hmap : (detect_anomalies_in_data X p sc tm eps).table.map ReconRow.err =
        List.zipWith (fun _ er => er) X (reconErrors X p sc eps) := by
      simp [detect_anomalies_in_data, List.map_zipWith]
    rw [hmap]
    have := zipWith_snd_map (γ := ℝ) id X (reconErrors X p sc eps) (le_of_eq hlen)
    simpa using this
  · intro r hr
    obtain ⟨x, er, rfl⟩ := mem_of_mem_zipWith hr
    by_cases hc : reconThreshold X p sc tm eps < er
    · right; simp [hc]
    · left; simp [hc]

/-- A trivially shaped model (all weights zero) and identity scaler used to
instantiate `recon_table_mutation`. -/
def zeroLayer (m n : ℕ) : Layer :=
  ⟨List.replicate m (List.replicate n (0 : ℝ)), List.replicate m 0⟩

def pZero : VAEParams where
  enc1 := zeroLayer 8 1
  enc2 := zeroLayer 8 8
  fc_mu := zeroLayer 4 8
  fc_var := zeroLayer 4 8
  dec1 := zeroLayer 8 4
  dec2 := zeroLayer 8 8
  dec3 := zeroLayer 1 8

def scId : Scaler := ⟨[0], [1]⟩

/-- Witness for `recon_table_mutation`: a one-row, one-feature dataset with
one latent noise sample per row. -/
theorem recon_table_mutation_w :
    ([[(0 : ℝ), 0, 0, 0]].length = [[(0 : ℝ)]].length) ∧
    ((detect_anomalies_in_data [[(0 : ℝ)]] pZero scId 1
        [[(0 : ℝ), 0, 0, 0]]).table.map ReconRow.row = [[(0 : ℝ)]] ∧
     (detect_anomalies_in_data [[(0 : ℝ)]] pZero scId 1
        [[(0 : ℝ), 0, 0, 0]]).table.map ReconRow.err =
       reconErrors [[(0 : ℝ)]] pZero scId [[(0 : ℝ), 0, 0, 0]] ∧
     (∀ r ∈ (detect_anomalies_in_data [[(0 : ℝ)]] pZero scId 1
        [[(0 : ℝ), 0, 0, 0]]).table, r.anomaly = 0 ∨ r.anomaly = 1) ∧
     (detect_anomalies_in_data [[(0 : ℝ)]] pZero scId 1
        [[(0 : ℝ), 0, 0, 0]]).anomalies =
       (detect_anomalies_in_data [[(0 : ℝ)]] pZero scId 1
          [[(0 : ℝ), 0, 0, 0]]).table.filter (fun r => decide (r.anomaly = 1))) :=
  ⟨rfl, recon_table_mutation [[(0 : ℝ)]] pZero scId 1 [[(0 : ℝ), 0, 0, 0]] rfl⟩

/-- A model whose decoder routes the first latent coordinate straight
through to the single output feature (encoder weights all zero, so
`mu = 0` and `log_var = 0`, hence `std = exp(0) = 1` and `z = eps`). Its
shapes are those of the source's `FinancialVAE(input_dim=1)` with the
default `hidden_dim=8`, `latent_dim=4`. -/
def pBug : VAEParams where
  enc1 := zeroLayer 8 1
  enc2 := zeroLayer 8 8
  fc_mu := zeroLayer 4 8
  fc_var := zeroLayer 4 8
  dec1 := ⟨[[1, 0, 0, 0]] ++ List.replicate 7 (List.replicate 4 (0 : ℝ)), List.replicate 8 0⟩
  dec2 := ⟨[[1, 0, 0, 0, 0, 0, 0, 0]] ++ List.replicate 7 (List.replicate 8 (0 : ℝ)),
    List.replicate 8 0⟩
  dec3 := ⟨[[1, 0, 0, 0, 0, 0, 0, 0]], [0]⟩

/-- C5: the reconstruction scan is not deterministic in (dataset, model
parameters, scaler, threshold multiplier): `FinancialVAE.forward` calls
`reparameterize`, which draws a fresh Gaussian sample on every invocation
(`model.eval()` does not disable it), so two invocations that differ only
in that sample can report different reconstruction errors for the same
row — here the error column is `[0]` under one noise draw and `[1]` under
another, with the data, weights, scaler and multiplier all fixed. -/
theorem recon_scan_noise_dependent :
    (detect_anomalies_in_data [[(0 : ℝ)]] pBug scId 1
        [[(0 : ℝ), 0, 0, 0]]).table.map ReconRow.err ≠
    (detect_anomalies_in_data [[(0 : ℝ)]] pBug scId 1
        [[(1 : ℝ), 0, 0, 0]]).table.map ReconRow.err := by
  have h1 : rowError pBug scId [0] [0, 0, 0, 0] = 0 := by
    simp [rowError, scalerTransform, vaeForward, encode, decode, reparameterize, linear,
      reluVec, relu, pBug, scId, zeroLayer, Real.exp_zero, List.replicate, max_def]
  have h2 : rowError pBug scId [0] [1, 0, 0, 0] = 1 := by
    simp [rowError, scalerTransform, vaeForward, encode, decode, reparameterize, linear,
      reluVec, relu, pBug, scId, zeroLayer, Real.exp_zero, List.replicate, max_def]
  intro hEq
  have hEq' : [rowError pBug scId [0] [0, 0, 0, 0]] = [rowError pBug scId [0] [1, 0, 0, 0]] := by
    simpa [detect_anomalies_in_data, reconErrors, List.zipWith] using hEq
  rw [h1, h2] at hEq'
  simp at hEq'

end FinRepo
